import Mathlib

set_option synthInstance.maxHeartbeats 1000000
set_option maxHeartbeats 1000000

/-!
Verification of the skopeo-wrapper core: a shallow embedding in Lean 4 of
the progress parser (`SkopeoProgressParser.parse_line`,
`SkopeoProgressParser.get_progress_percentage`), the process-coordinator
result logic (`SkopeoWrapper._run_command`'s completion / timeout / spawn
branches), and the metrics operation tracker (`OperationTracker`
enter/exit with `SkopeoMetrics.record_operation_start/end/record_error`).

Lines of process output are modelled as `List Char`; Python regular
expressions are modelled by explicit matcher functions reproducing the
anchored-at-start (`re.match`) semantics of the concrete patterns in the
source; Python floats are modelled as rationals; the Python dict holding
blobs is modelled as an insertion-ordered association list.
-/

/-- Whitespace characters stripped by Python's `str.strip()` (ASCII range):
space, tab, newline, vertical tab, form feed, carriage return. -/
def isPyWs (c : Char) : Bool :=
  c.toNat = 32 || c.toNat = 9 || c.toNat = 10 || c.toNat = 11 ||
  c.toNat = 12 || c.toNat = 13

/-- Model of Python's `str.strip()`: drop leading and trailing whitespace. -/
def pyStrip (l : List Char) : List Char :=
  ((l.dropWhile isPyWs).reverse.dropWhile isPyWs).reverse

/-- Character class `[a-f0-9]` of the digest patterns. -/
def isHexLower (c : Char) : Bool :=
  (97 ≤ c.toNat && c.toNat ≤ 102) || (48 ≤ c.toNat && c.toNat ≤ 57)

/-- Character class `\d` (ASCII digits) of the blob-size pattern. -/
def isDigitChar (c : Char) : Bool :=
  48 ≤ c.toNat && c.toNat ≤ 57

/-- Decimal value of a digit string, as read by Python's `int()`. -/
def natOfDigits (l : List Char) : Nat :=
  l.foldl (fun n c => n * 10 + (c.toNat - 48)) 0

/-- Anchored literal match: `listStartsWith pat l` holds when `pat` is an
initial segment of `l` (the semantics of `re.match` on a literal). -/
def listStartsWith : List Char → List Char → Bool
  | [], _ => true
  | _ :: _, [] => false
  | p :: ps, c :: cs => p == c && listStartsWith ps cs

/-- Model of the group `([a-f0-9]{64})` at the head of `l`: exactly 64
lowercase-hex characters are consumed (the Python regex takes the first 64
and leaves the rest of the line unconstrained). Returns the digest and the
remaining characters. -/
def matchDigest (l : List Char) : Option (List Char × List Char) :=
  let d := l.take 64
  if d.length = 64 && d.all isHexLower then some (d, l.drop 64) else none

/-- Pattern `Getting image source signatures` under `re.match`. -/
def matchGettingSignatures (l : List Char) : Bool :=
  listStartsWith "Getting image source signatures".toList l

/-- Pattern `Copying blob sha256:([a-f0-9]{64})` under `re.match`;
returns group 1. -/
def matchCopyingBlob (l : List Char) : Option (List Char) :=
  if listStartsWith "Copying blob sha256:".toList l then
    (matchDigest (l.drop "Copying blob sha256:".toList.length)).map Prod.fst
  else none

/-- Pattern `Copying blob sha256:([a-f0-9]{64}) \((\d+) bytes\)` under
`re.match`; returns group 1 (digest) and group 2 (byte count). The `\d+`
group is the maximal digit run — shrinking it cannot help the required
following space, so no backtracking case is lost. -/
def matchBlobSize (l : List Char) : Option (List Char × Nat) :=
  if listStartsWith "Copying blob sha256:".toList l then
    match matchDigest (l.drop "Copying blob sha256:".toList.length) with
    | some (d, rest) =>
      match rest with
      | ' ' :: '(' :: r2 =>
        let ds := r2.takeWhile isDigitChar
        if ds.isEmpty then none
        else if listStartsWith " bytes)".toList (r2.drop ds.length) then
          some (d, natOfDigits ds)
        else none
      | _ => none
    | none => none
  else none

/-- Pattern `Copying config sha256:([a-f0-9]{64})` under `re.match`;
returns group 1. -/
def matchCopyingConfig (l : List Char) : Option (List Char) :=
  if listStartsWith "Copying config sha256:".toList l then
    (matchDigest (l.drop "Copying config sha256:".toList.length)).map Prod.fst
  else none

/-- Pattern `Writing manifest to image destination` under `re.match`. -/
def matchWritingManifest (l : List Char) : Bool :=
  listStartsWith "Writing manifest to image destination".toList l

/-- Pattern `Storing signatures` under `re.match`. -/
def matchStoringSignatures (l : List Char) : Bool :=
  listStartsWith "Storing signatures".toList l

/-- Pattern `Error: (.+)` under `re.match`: requires at least one
non-newline character after the literal, and group 1 is the greedy run of
non-newline characters. -/
def matchErrorLine (l : List Char) : Option (List Char) :=
  if listStartsWith "Error: ".toList l then
    let g := (l.drop "Error: ".toList.length).takeWhile (fun c => c.toNat ≠ 10)
    if g.isEmpty then none else some g
  else none

/-- Embedding of the `BlobInfo` dataclass. -/
structure BlobInfo where
  sha256 : List Char
  size : Option Nat := none
  status : String := "pending"
deriving Repr, DecidableEq

/-- Embedding of the `ProgressInfo` dataclass (the `parser` back-reference
field is omitted: it is only a convenience alias set for callbacks). -/
structure ProgressInfo where
  operation : String
  current_step : String
  total_blobs : Nat := 0
  copied_blobs : Nat := 0
  current_blob : Option BlobInfo := none
  manifest_written : Bool := false
  signatures_stored : Bool := false
  error : Option (List Char) := none
  completed : Bool := false
deriving Repr, DecidableEq

/-- Embedding of the mutable state of `SkopeoProgressParser`: the running
snapshot and the blob dict (insertion-ordered association list, as a
Python dict is insertion-ordered). -/
structure SkopeoProgressParser where
  progress : ProgressInfo
  blobs : List (List Char × BlobInfo)
deriving Repr, DecidableEq

/-- State built by `SkopeoProgressParser.__init__`. -/
def SkopeoProgressParser.init : SkopeoProgressParser :=
  { progress := { operation := "", current_step := "" }, blobs := [] }

/-- Lookup in the blob dict (`self.blobs[sha256]` / `sha256 in self.blobs`). -/
def dictFind (bs : List (List Char × BlobInfo)) (k : List Char) : Option BlobInfo :=
  match bs with
  | [] => none
  | (k', v) :: t => if k' = k then some v else dictFind t k

/-- Assignment into the blob dict (`self.blobs[sha256] = ...`): replaces the
entry in place when the key exists, otherwise appends, as a Python dict does. -/
def dictSet (bs : List (List Char × BlobInfo)) (k : List Char) (v : BlobInfo) :
    List (List Char × BlobInfo) :=
  match bs with
  | [] => [(k, v)]
  | (k', v') :: t => if k' = k then (k, v) :: t else (k', v') :: dictSet t k v

/-- Embedding of `SkopeoProgressParser.parse_line`: strips the line, returns
`none` on an empty line, then tries the patterns in the source's order
(getting_signatures, blob_size, copying_blob, copying_config,
writing_manifest, storing_signatures, error); the first match mutates the
snapshot and returns it, and a line matching nothing returns `none` and
leaves the state unchanged. -/
def SkopeoProgressParser.parse_line (self : SkopeoProgressParser) (line : List Char) :
    Option ProgressInfo × SkopeoProgressParser :=
  let line := pyStrip line
  if line.isEmpty then (none, self)
  else if matchGettingSignatures line then
    let p := { self.progress with operation := "copy", current_step := "getting_signatures" }
    (some p, { self with progress := p })
  else match matchBlobSize line with
  | some (sha256, size) =>
    let blobs := dictSet self.blobs sha256 { sha256 := sha256, size := some size, status := "copying" }
    let p := { self.progress with current_blob := dictFind blobs sha256, current_step := "copying_blob" }
    (some p, { progress := p, blobs := blobs })
  | none =>
    match matchCopyingBlob line with
    | some sha256 =>
      let blobs :=
        if (dictFind self.blobs sha256).isNone then
          dictSet self.blobs sha256 { sha256 := sha256, status := "copying" }
        else self.blobs
      let p := { self.progress with current_blob := dictFind blobs sha256, current_step := "copying_blob" }
      (some p, { progress := p, blobs := blobs })
    | none =>
      match matchCopyingConfig line with
      | some sha256 =>
        let blobs :=
          if (dictFind self.blobs sha256).isNone then
            dictSet self.blobs sha256 { sha256 := sha256, status := "copying" }
          else self.blobs
        let p := { self.progress with current_blob := dictFind blobs sha256, current_step := "copying_config" }
        (some p, { progress := p, blobs := blobs })
      | none =>
        if matchWritingManifest line then
          let p := { self.progress with manifest_written := true, current_step := "writing_manifest" }
          (some p, { self with progress := p })
        else if matchStoringSignatures line then
          let p := { self.progress with signatures_stored := true, current_step := "storing_signatures" }
          (some p, { self with progress := p })
        else
          match matchErrorLine line with
          | some msg =>
            let p := { self.progress with error := some msg, current_step := "error" }
            (some p, { self with progress := p })
          | none => (none, self)

/-- Feeding a sequence of lines to the parser, keeping only the state. -/
def SkopeoProgressParser.parseLines (self : SkopeoProgressParser)
    (lines : List (List Char)) : SkopeoProgressParser :=
  lines.foldl (fun s l => (s.parse_line l).2) self

/-- Embedding of `SkopeoProgressParser.get_progress_percentage` (Python
floats modelled as rationals): 0 on error, else 100 when completed, else the
per-step milestone, with the copying_blob estimate
`min(20 + (n / max(1, n+1)) * 50, 70)` for `n` the size of the blob dict,
and 0 for any other step. -/
def SkopeoProgressParser.get_progress_percentage (self : SkopeoProgressParser) : ℚ :=
  if self.progress.error.isSome then 0
  else if self.progress.completed then 100
  else if self.progress.current_step = "getting_signatures" then 10
  else if self.progress.current_step = "copying_blob" then
    min (20 + ((self.blobs.length : ℚ) / ((max 1 (self.blobs.length + 1) : ℕ) : ℚ)) * 50) 70
  else if self.progress.current_step = "copying_config" then 75
  else if self.progress.current_step = "writing_manifest" then 90
  else if self.progress.current_step = "storing_signatures" then 95
  else 0

/-- Observable outcome of one child-process run inside
`SkopeoWrapper._run_command`: normal exit with a return code and captured
streams, a deadline expiry (`subprocess.TimeoutExpired`), or any other
exception, e.g. a spawn failure, carrying its text. -/
inductive ProcOutcome where
  | exited (returncode : Int) (stdout stderr : String)
  | timedOut
  | spawnFailed (message : String)
deriving Repr, DecidableEq

/-- Result triple returned by `_run_command`, plus whether the coordinator
killed the child (`process.kill()` in the timeout handler). -/
structure RunResult where
  success : Bool
  stdout : String
  stderr : String
  killedChild : Bool
deriving Repr, DecidableEq

/-- Embedding of the completion bookkeeping of `_run_command` after
`process.communicate` returns: on a zero return code the snapshot is marked
completed with step "completed"; on a non-zero return code the snapshot's
error field is assigned the synthesized message
`Process exited with code {returncode}` (unconditionally). -/
def finishParserState (self : SkopeoProgressParser) (returncode : Int) :
    SkopeoProgressParser :=
  if returncode = 0 then
    { self with progress := { self.progress with completed := true, current_step := "completed" } }
  else
    { self with progress :=
        { self.progress with error := some ("Process exited with code " ++ toString returncode).toList } }

/-- Embedding of the result logic of `_run_command`: a normal exit yields
`(returncode == 0, stdout, stderr)` and the completion bookkeeping; a
timeout kills the child and yields `(False, "", "Operation timed out")`; any
other exception yields `(False, "", str(e))`. -/
def runCommandResult (self : SkopeoProgressParser) (outcome : ProcOutcome) :
    RunResult × SkopeoProgressParser :=
  match outcome with
  | .exited rc out err =>
    ({ success := decide (rc = 0), stdout := out, stderr := err, killedChild := false },
     finishParserState self rc)
  | .timedOut =>
    ({ success := false, stdout := "", stderr := "Operation timed out", killedChild := true }, self)
  | .spawnFailed msg =>
    ({ success := false, stdout := "", stderr := msg, killedChild := false }, self)

/-- Pointwise update of a labelled metric family at one label key. -/
def updFn {κ α : Type} [DecidableEq κ] (f : κ → α) (k : κ) (v : α) : κ → α :=
  fun k' => if k' = k then v else f k'

/-- Embedding of the metric families of `SkopeoMetrics` touched by the
operation-tracking paths: counters and gauges are label-indexed numbers,
histograms are label-indexed lists of observations, and the per-operation
detail gauges are `Option`-valued (`none` meaning the labelled series does
not currently exist, so that `remove` can be modelled). -/
structure SkopeoMetrics where
  active_operations : String → ℤ
  operations_total : String × String → ℕ
  operation_errors_total : String × String → ℕ
  operation_duration_seconds : String → List ℚ
  blobs_processed_total : String × String → ℕ
  blob_size_bytes : String → List ℚ
  source_operations_total : String × String → ℕ
  destination_operations_total : String × String → ℕ
  active_operations_detailed : String × String × String × String → Option ℚ
  active_operation_duration : String × String × String × String → Option ℚ
  operation_speed : String × String × String → Option ℚ
  operation_last_progress : String × String × String × String → Option ℚ
  operation_stale_seconds : String × String × String × String → Option ℚ

/-- Freshly constructed registry: every counter at zero, every histogram
empty, no per-operation detail series. -/
def SkopeoMetrics.empty : SkopeoMetrics :=
  { active_operations := fun _ => 0
    operations_total := fun _ => 0
    operation_errors_total := fun _ => 0
    operation_duration_seconds := fun _ => []
    blobs_processed_total := fun _ => 0
    blob_size_bytes := fun _ => []
    source_operations_total := fun _ => 0
    destination_operations_total := fun _ => 0
    active_operations_detailed := fun _ => none
    active_operation_duration := fun _ => none
    operation_speed := fun _ => none
    operation_last_progress := fun _ => none
    operation_stale_seconds := fun _ => none }

/-- Embedding of `SkopeoMetrics._extract_type_from_url`. -/
def SkopeoMetrics.extract_type_from_url (url : String) : String :=
  if url.startsWith "docker://" then "docker"
  else if url.startsWith "dir:" then "dir"
  else if url.startsWith "oci://" then "oci"
  else if url.startsWith "containers-storage://" then "containers_storage"
  else if url.startsWith "docker-archive://" then "docker_archive"
  else if url.startsWith "oci-archive://" then "oci_archive"
  else "unknown"

/-- Embedding of `SkopeoMetrics._get_short_name` (default max length 50):
`None`/empty gives "unknown"; otherwise the transport markers are removed
and the result is truncated to 47 characters plus "..." when longer than 50. -/
def SkopeoMetrics.get_short_name (url : Option String) : String :=
  match url with
  | none => "unknown"
  | some u =>
    if u.isEmpty then "unknown"
    else
      let short := ((u.replace "docker://" "").replace "dir:" "").replace "oci://" ""
      if 50 < short.length then short.take 47 ++ "..." else short

/-- Embedding of `SkopeoMetrics.record_operation_start`: increments the
active-operations gauge for the operation kind (the returned start time is
threaded separately as an explicit parameter). -/
def SkopeoMetrics.record_operation_start (m : SkopeoMetrics) (operation : String) :
    SkopeoMetrics :=
  let g := updFn m.active_operations operation (m.active_operations operation + 1)
  { m with active_operations := g }

/-- Embedding of `SkopeoMetrics.record_operation_end` with the current time
as an explicit parameter: decrements the active gauge, bumps the
per-(operation, status) counter, observes the duration, folds blob
statistics in (one observation of the average size per blob, only when the
count and the total are positive), and bumps per-source/destination-type
counters for truthy (non-`None`, non-empty) source and destination. -/
def SkopeoMetrics.record_operation_end (m : SkopeoMetrics) (operation : String)
    (success : Bool) (start_time now : ℚ) (source destination : Option String)
    (blob_count total_blob_size : ℕ) : SkopeoMetrics :=
  let g := updFn m.active_operations operation (m.active_operations operation - 1)
  let m₁ := { m with active_operations := g }
  let status := if success then "success" else "error"
  let ot := updFn m₁.operations_total (operation, status) (m₁.operations_total (operation, status) + 1)
  let m₂ := { m₁ with operations_total := ot }
  let od := updFn m₂.operation_duration_seconds operation (m₂.operation_duration_seconds operation ++ [now - start_time])
  let m₃ := { m₂ with operation_duration_seconds := od }
  let m₄ :=
    if 0 < blob_count then
      let bp := updFn m₃.blobs_processed_total (operation, status) (m₃.blobs_processed_total (operation, status) + blob_count)
      let m' := { m₃ with blobs_processed_total := bp }
      if 0 < total_blob_size then
        let bs := updFn m'.blob_size_bytes operation (m'.blob_size_bytes operation ++ List.replicate blob_count ((total_blob_size : ℚ) / (blob_count : ℚ)))
        { m' with blob_size_bytes := bs }
      else m'
    else m₃
  let m₅ :=
    match source with
    | some s =>
      if s.isEmpty then m₄
      else
        let st := updFn m₄.source_operations_total (SkopeoMetrics.extract_type_from_url s, operation) (m₄.source_operations_total (SkopeoMetrics.extract_type_from_url s, operation) + 1)
        { m₄ with source_operations_total := st }
    | none => m₄
  match destination with
  | some d =>
    if d.isEmpty then m₅
    else
      let dt := updFn m₅.destination_operations_total (SkopeoMetrics.extract_type_from_url d, operation) (m₅.destination_operations_total (SkopeoMetrics.extract_type_from_url d, operation) + 1)
      { m₅ with destination_operations_total := dt }
  | none => m₅

/-- Embedding of `SkopeoMetrics.record_error`. -/
def SkopeoMetrics.record_error (m : SkopeoMetrics) (operation error_type : String) :
    SkopeoMetrics :=
  let e := updFn m.operation_errors_total (operation, error_type) (m.operation_errors_total (operation, error_type) + 1)
  { m with operation_errors_total := e }

/-- Embedding of the metric cleanup in `OperationTracker.stop_heartbeat`
(the thread join itself is concurrency and out of the embedding): the five
per-operation series are removed in order inside one `try`, and since
Prometheus `remove` raises when the labelled series does not exist and the
single `except` swallows it, the first missing series aborts the remaining
removals. -/
def stopHeartbeatCleanup (m : SkopeoMetrics)
    (operation source_short dest_short current_step : String) : SkopeoMetrics :=
  let k4 := (operation, source_short, dest_short, current_step)
  let k3 := (operation, source_short, dest_short)
  if (m.active_operations_detailed k4).isNone then m else
  let m := { m with active_operations_detailed := updFn m.active_operations_detailed k4 none }
  if (m.active_operation_duration k4).isNone then m else
  let m := { m with active_operation_duration := updFn m.active_operation_duration k4 none }
  if (m.operation_speed k3).isNone then m else
  let m := { m with operation_speed := updFn m.operation_speed k3 none }
  if (m.operation_last_progress k4).isNone then m else
  let m := { m with operation_last_progress := updFn m.operation_last_progress k4 none }
  if (m.operation_stale_seconds k4).isNone then m else
  { m with operation_stale_seconds := updFn m.operation_stale_seconds k4 none }

/-- Embedding of one `OperationTracker` context-manager scope: `__enter__`
(gauge increment at `record_operation_start`), then the body runs (its
tracker-local effects are the `current_step`, `blob_count` and
`total_blob_size` parameters; `exc_type` is the name of the exception type
when the body raised, `none` when it returned), then `__exit__`:
`stop_heartbeat` cleanup, `record_operation_end` with success iff no
exception, and `record_error` labelled with the exception type name when one
was raised. The returned Boolean is the value `__exit__` hands back to the
interpreter: Python's falsy `None`, so a raised exception is never
suppressed and propagates to the caller unchanged. -/
def OperationTracker.scope (m : SkopeoMetrics) (operation : String)
    (source destination : Option String) (current_step : String)
    (start_time end_time : ℚ) (blob_count total_blob_size : ℕ)
    (exc_type : Option String) : SkopeoMetrics × Bool :=
  let m₁ := SkopeoMetrics.record_operation_start m operation
  let ss := SkopeoMetrics.get_short_name source
  let ds := SkopeoMetrics.get_short_name destination
  let m₂ := stopHeartbeatCleanup m₁ operation ss ds current_step
  let m₃ := SkopeoMetrics.record_operation_end m₂ operation exc_type.isNone
      start_time end_time source destination blob_count total_blob_size
  let m₄ :=
    match exc_type with
    | some t => SkopeoMetrics.record_error m₃ operation t
    | none => m₃
  (m₄, false)

/-- Conjunction of the failure of all seven parser patterns on a (stripped)
line: such a line is recognized by nothing. -/
def matchesNoPattern (l : List Char) : Bool :=
  !matchGettingSignatures l && (matchBlobSize l).isNone && (matchCopyingBlob l).isNone &&
  (matchCopyingConfig l).isNone && !matchWritingManifest l && !matchStoringSignatures l &&
  (matchErrorLine l).isNone

/-- Position of a parser state on the fixed milestone ordering
getting_signatures → copying_config → writing_manifest →
storing_signatures → completed (`none` for states off this ordering);
`completed` is consulted first, as `get_progress_percentage` does. -/
def milestoneRank (st : SkopeoProgressParser) : Option ℕ :=
  if st.progress.completed then some 4
  else if st.progress.current_step = "getting_signatures" then some 0
  else if st.progress.current_step = "copying_config" then some 1
  else if st.progress.current_step = "writing_manifest" then some 2
  else if st.progress.current_step = "storing_signatures" then some 3
  else none

/-- Fixed milestone percentages along the ordering of `milestoneRank`. -/
def milestoneValue : ℕ → ℚ
  | 0 => 10
  | 1 => 75
  | 2 => 90
  | 3 => 95
  | _ => 100

/-- The 64-character digest used by the spec's concrete scenario. -/
def sha64 : List Char := List.replicate 64 'a'

/-- Scenario line `Getting image source signatures`. -/
def gettingLine : List Char := "Getting image source signatures".toList

/-- Scenario line `Copying blob sha256:<64 a's> (1048576 bytes)`. -/
def blobSizeLine : List Char :=
  "Copying blob sha256:".toList ++ (sha64 ++ " (1048576 bytes)".toList)

/-- Scenario line `Writing manifest to image destination`. -/
def manifestLine : List Char := "Writing manifest to image destination".toList

/-- Scenario line `Storing signatures`. -/
def storingLine : List Char := "Storing signatures".toList

/-- Blob line carrying the scenario digest but no byte size. -/
def blobNoSizeLine : List Char := "Copying blob sha256:".toList ++ sha64

/-- Blob line reporting 100 bytes for the scenario digest. -/
def blobSize100Line : List Char :=
  "Copying blob sha256:".toList ++ (sha64 ++ " (100 bytes)".toList)

/-- Blob line reporting 50 bytes for the scenario digest. -/
def blobSize50Line : List Char :=
  "Copying blob sha256:".toList ++ (sha64 ++ " (50 bytes)".toList)

/-- Blob line whose hex run after the marker is 65 characters long: a
malformed (over-long) digest token. -/
def blobLine65 : List Char := "Copying blob sha256:".toList ++ List.replicate 65 'a'

/-- Diagnostic line `Error: disk full`. -/
def errorLine : List Char := "Error: disk full".toList

/-- A line matching none of the parser's patterns. -/
def chatterLine : List Char := "some random diagnostic chatter".toList

/-- Parser state holding the parsed diagnostic error `disk full`. -/
def errSt : SkopeoProgressParser :=
  (SkopeoProgressParser.init.parse_line errorLine).2

/-- Parser state after a successful run's completion bookkeeping. -/
def completedSt : SkopeoProgressParser :=
  finishParserState SkopeoProgressParser.init 0

/-- Parser state after the `Getting image source signatures` line. -/
def stGetting : SkopeoProgressParser :=
  (SkopeoProgressParser.init.parse_line gettingLine).2

/-- Update at the written key reads back the written value. -/
theorem updFn_same {κ α : Type} [DecidableEq κ] (f : κ → α) (k : κ) (v : α) :
    updFn f k v k = v := by simp [updFn]

/-- Update at another key leaves the read unchanged. -/
theorem updFn_ne {κ α : Type} [DecidableEq κ] (f : κ → α) (k k' : κ) (v : α)
    (h : k' ≠ k) : updFn f k v k' = f k' := by simp [updFn, h]

/-- Looking up the key just assigned returns the assigned descriptor. -/
theorem dictFind_dictSet_self (bs : List (List Char × BlobInfo)) (k : List Char)
    (v : BlobInfo) : dictFind (dictSet bs k v) k = some v := by
  induction bs with
  | nil => simp [dictSet, dictFind]
  | cons hd t ih =>
    obtain ⟨k', v'⟩ := hd
    by_cases h : k' = k
    · simp [dictSet, dictFind, h]
    · simp [dictSet, dictFind, h, ih]

/-- Key multiset of an assignment: unchanged when the key was present,
extended by the key at the end when it was absent. -/
theorem keys_dictSet (bs : List (List Char × BlobInfo)) (k : List Char) (v : BlobInfo) :
    (dictSet bs k v).map Prod.fst =
      if k ∈ bs.map Prod.fst then bs.map Prod.fst else bs.map Prod.fst ++ [k] := by
  induction bs with
  | nil => simp [dictSet]
  | cons hd t ih =>
    obtain ⟨k', v'⟩ := hd
    by_cases h : k' = k
    · simp [dictSet, h]
    · have hne : ¬ k = k' := fun hh => h hh.symm
      by_cases hm : k ∈ t.map Prod.fst <;> simp [dictSet, h, hne, hm, ih]

/-- Assignment preserves distinctness of the registry's keys. -/
theorem dictSet_nodup (bs : List (List Char × BlobInfo)) (k : List Char) (v : BlobInfo)
    (h : (bs.map Prod.fst).Nodup) : ((dictSet bs k v).map Prod.fst).Nodup := by
  rw [keys_dictSet]
  by_cases hm : k ∈ bs.map Prod.fst
  · simpa [hm] using h
  · simp only [hm, if_false]
    rw [List.nodup_append]
    exact ⟨h, List.nodup_singleton k, by simpa using hm⟩

/-- The assigned key is a key of the resulting registry. -/
theorem mem_keys_dictSet (bs : List (List Char × BlobInfo)) (k : List Char) (v : BlobInfo) :
    k ∈ (dictSet bs k v).map Prod.fst := by
  rw [keys_dictSet]
  by_cases hm : k ∈ bs.map Prod.fst <;> simp [hm]

/-- Every entry of an assignment result is an old entry or the new pair. -/
theorem mem_dictSet (bs : List (List Char × BlobInfo)) (k : List Char) (v : BlobInfo)
    (p : List Char × BlobInfo) (hp : p ∈ dictSet bs k v) : p ∈ bs ∨ p = (k, v) := by
  induction bs with
  | nil => simpa [dictSet] using hp
  | cons hd t ih =>
    obtain ⟨k', v'⟩ := hd
    by_cases h : k' = k
    · simp [dictSet, h] at hp
      rcases hp with h1 | h1
      · exact Or.inr (by simp [h1])
      · exact Or.inl (List.mem_cons_of_mem _ h1)
    · simp [dictSet, h] at hp
      rcases hp with h1 | h1
      · exact Or.inl (by simp [h1])
      · rcases ih h1 with h2 | h2
        · exact Or.inl (List.mem_cons_of_mem _ h2)
        · exact Or.inr h2

/-- C5: on a timeout the coordinator kills the child and returns failure
with empty captured standard output and the fixed message
`Operation timed out`; the parser state is returned as it was — no partial
output is salvaged. -/
theorem c5_timeout_result (st : SkopeoProgressParser) :
    runCommandResult st ProcOutcome.timedOut =
      ({ success := false, stdout := "", stderr := "Operation timed out",
         killedChild := true }, st) := rfl

/-- C2 counterexample: after the parser captured the diagnostic error
`disk full`, a non-zero exit makes the coordinator overwrite it with the
synthesized exit-code message, so the parsed text does not take precedence
as the claim states. -/
theorem c2_counterexample :
    errSt.progress.error = some "disk full".toList ∧
    ((runCommandResult errSt (ProcOutcome.exited 1 "" "")).2).progress.error =
      some "Process exited with code 1".toList ∧
    "Process exited with code 1".toList ≠ "disk full".toList := by
  refine ⟨by decide, by decide, by decide⟩

/-- C2 amended: whenever the child exits with a non-zero status the
coordinator unconditionally assigns the synthesized
`Process exited with code {rc}` message to the snapshot's error field,
discarding any previously parsed diagnostic text. -/
theorem c2_amended (st : SkopeoProgressParser) (rc : Int) (out err : String)
    (h : rc ≠ 0) :
    ((runCommandResult st (ProcOutcome.exited rc out err)).2).progress.error =
      some (("Process exited with code " ++ toString rc).toList) := by
  simp [runCommandResult, finishParserState, h]

/-- Witness for the amended C2 at a concrete state and exit code. -/
theorem c2_witness :
    ((runCommandResult errSt (ProcOutcome.exited 2 "" "")).2).progress.error =
      some (("Process exited with code " ++ toString (2 : Int)).toList) :=
  c2_amended errSt 2 "" "" (by norm_num)

/-- C1: the progress percentage is exactly 0 under a recorded error,
otherwise 100 when completed, otherwise the fixed per-step milestones, with
`min(20 + (n/(n+1))·50, 70)` during copying_blob for `n` the number of
registered blobs, and the result always lies in [0, 100]. -/
theorem c1_progress_percentage (st : SkopeoProgressParser) :
    (st.progress.error.isSome = true → st.get_progress_percentage = 0) ∧
    (st.progress.error = none → st.progress.completed = true →
      st.get_progress_percentage = 100) ∧
    (st.progress.error = none → st.progress.completed = false →
      ((st.progress.current_step = "getting_signatures" → st.get_progress_percentage = 10) ∧
       (st.progress.current_step = "copying_config" → st.get_progress_percentage = 75) ∧
       (st.progress.current_step = "writing_manifest" → st.get_progress_percentage = 90) ∧
       (st.progress.current_step = "storing_signatures" → st.get_progress_percentage = 95) ∧
       (st.progress.current_step = "copying_blob" →
         st.get_progress_percentage =
           min (20 + ((st.blobs.length : ℚ) / ((st.blobs.length : ℚ) + 1)) * 50) 70))) ∧
    (0 ≤ st.get_progress_percentage ∧ st.get_progress_percentage ≤ 100) := by
  have hmax : ((max 1 (st.blobs.length + 1) : ℕ) : ℚ) = (st.blobs.length : ℚ) + 1 := by
    rw [Nat.max_eq_right (by omega)]
    push_cast
    ring
  refine ⟨?_, ?_, ?_, ?_⟩
  · intro h
    simp [SkopeoProgressParser.get_progress_percentage, h]
  · intro h1 h2
    simp [SkopeoProgressParser.get_progress_percentage, h1, h2]
  · intro h1 h2
    refine ⟨?_, ?_, ?_, ?_, ?_⟩ <;> intro hs <;>
      simp [SkopeoProgressParser.get_progress_percentage, h1, h2, hs, hmax]
  · unfold SkopeoProgressParser.get_progress_percentage
    split_ifs <;> norm_num <;> positivity

/-- Witness for C1 at concrete states: the error state yields 0, the
completed state yields 100, the getting-signatures state yields 10, and a
state with one blob mid-copy yields the asymptotic estimate. -/
theorem c1_witness :
    errSt.get_progress_percentage = 0 ∧
    completedSt.get_progress_percentage = 100 ∧
    stGetting.get_progress_percentage = 10 := by
  refine ⟨(c1_progress_percentage errSt).1 rfl,
          (c1_progress_percentage completedSt).2.1 rfl rfl,
          ((c1_progress_percentage stGetting).2.2.1 rfl rfl).1 rfl⟩

/-- Milestone percentage as a function of position on the milestone
ordering is monotonically non-decreasing. -/
theorem milestoneValue_mono {r₁ r₂ : ℕ} (h : r₁ ≤ r₂) :
    milestoneValue r₁ ≤ milestoneValue r₂ := by
  rcases r₁ with _ | _ | _ | _ | r₁ <;> rcases r₂ with _ | _ | _ | _ | r₂ <;>
    simp_all [milestoneValue] <;> first | norm_num | omega

/-- For an error-free state on the milestone ordering, the progress
percentage is the fixed milestone value of its position. -/
theorem pct_of_rank (st : SkopeoProgressParser) (r : ℕ)
    (he : st.progress.error = none) (hr : milestoneRank st = some r) :
    st.get_progress_percentage = milestoneValue r := by
  unfold milestoneRank at hr
  by_cases hc : st.progress.completed
  · rw [if_pos hc] at hr
    obtain rfl : (4 : ℕ) = r := Option.some.inj hr
    simp [SkopeoProgressParser.get_progress_percentage, he, hc, milestoneValue]
  · rw [if_neg hc] at hr
    by_cases h0 : st.progress.current_step = "getting_signatures"
    · rw [if_pos h0] at hr
      obtain rfl : (0 : ℕ) = r := Option.some.inj hr
      simp [SkopeoProgressParser.get_progress_percentage, he, hc, h0, milestoneValue]
    · rw [if_neg h0] at hr
      by_cases h1 : st.progress.current_step = "copying_config"
      · rw [if_pos h1] at hr
        obtain rfl : (1 : ℕ) = r := Option.some.inj hr
        simp [SkopeoProgressParser.get_progress_percentage, he, hc, h0, h1, milestoneValue]
      · rw [if_neg h1] at hr
        by_cases h2 : st.progress.current_step = "writing_manifest"
        · rw [if_pos h2] at hr
          obtain rfl : (2 : ℕ) = r := Option.some.inj hr
          simp [SkopeoProgressParser.get_progress_percentage, he, hc, h0, h1, h2, milestoneValue]
        · rw [if_neg h2] at hr
          by_cases h3 : st.progress.current_step = "storing_signatures"
          · rw [if_pos h3] at hr
            obtain rfl : (3 : ℕ) = r := Option.some.inj hr
            simp [SkopeoProgressParser.get_progress_percentage, he, hc, h0, h1, h2, h3, milestoneValue]
          · rw [if_neg h3] at hr
            exact absurd hr (by simp)

/-- C7: along the fixed milestone ordering (rank 0 = getting_signatures 10,
1 = copying_config 75, 2 = writing_manifest 90, 3 = storing_signatures 95,
4 = completed 100) the progress percentage of error-free states is
monotonically non-decreasing, and any state with an error message set
yields 0 regardless of its step or completed flag. -/
theorem c7_monotone_milestones :
    (∀ s₁ s₂ : SkopeoProgressParser, ∀ r₁ r₂ : ℕ,
      s₁.progress.error = none → s₂.progress.error = none →
      milestoneRank s₁ = some r₁ → milestoneRank s₂ = some r₂ → r₁ ≤ r₂ →
      s₁.get_progress_percentage ≤ s₂.get_progress_percentage) ∧
    (∀ st : SkopeoProgressParser, st.progress.error.isSome = true →
      st.get_progress_percentage = 0) := by
  constructor
  · intro s₁ s₂ r₁ r₂ he₁ he₂ hr₁ hr₂ hle
    rw [pct_of_rank s₁ r₁ he₁ hr₁, pct_of_rank s₂ r₂ he₂ hr₂]
    exact milestoneValue_mono hle
  · intro st h
    simp [SkopeoProgressParser.get_progress_percentage, h]

/-- Witness for C7 at concrete states: the getting-signatures state (rank
0) is below the completed state (rank 4), and the error state yields 0. -/
theorem c7_witness :
    stGetting.get_progress_percentage ≤ completedSt.get_progress_percentage ∧
    errSt.get_progress_percentage = 0 :=
  ⟨c7_monotone_milestones.1 stGetting completedSt 0 4 rfl rfl rfl rfl (by norm_num),
   c7_monotone_milestones.2 errSt rfl⟩

/-- C4: a line on which every parser pattern fails (the empty stripped line
included, since no pattern matches it) produces no event and leaves the
snapshot and the blob registry untouched; the embedding is a total
function, so no exception is possible. -/
theorem c4_unmatched_line_frame (st : SkopeoProgressParser) (line : List Char)
    (h : matchesNoPattern (pyStrip line) = true) :
    st.parse_line line = (none, st) := by
  simp only [matchesNoPattern, Bool.and_eq_true, Bool.not_eq_true',
    Option.isNone_iff_eq_none] at h
  obtain ⟨⟨⟨⟨⟨⟨h1, h2⟩, h3⟩, h4⟩, h5⟩, h6⟩, h7⟩ := h
  unfold SkopeoProgressParser.parse_line
  by_cases hE : (pyStrip line).isEmpty
  · simp [hE]
  · simp [hE, h1, h2, h3, h4, h5, h6, h7]

/-- Witness for C4 on a concrete unrecognized chatter line and on a
whitespace-only line. -/
theorem c4_witness :
    SkopeoProgressParser.init.parse_line chatterLine = (none, SkopeoProgressParser.init) ∧
    SkopeoProgressParser.init.parse_line "  ".toList = (none, SkopeoProgressParser.init) :=
  ⟨c4_unmatched_line_frame SkopeoProgressParser.init chatterLine (by decide),
   c4_unmatched_line_frame SkopeoProgressParser.init "  ".toList (by decide)⟩

/-- C6: the four-line concrete scenario ends in step storing_signatures
with manifest-written and signatures-stored set and exactly one registered
blob of 1048576 bytes in the in-transit ("copying") status, and the
percentage estimates after each line are 10, a value in [20, 70] (namely
45), 90 and 95. -/
theorem c6_scenario :
    (SkopeoProgressParser.init.parseLines
        [gettingLine, blobSizeLine, manifestLine, storingLine]).progress.current_step =
      "storing_signatures" ∧
    (SkopeoProgressParser.init.parseLines
        [gettingLine, blobSizeLine, manifestLine, storingLine]).progress.manifest_written = true ∧
    (SkopeoProgressParser.init.parseLines
        [gettingLine, blobSizeLine, manifestLine, storingLine]).progress.signatures_stored = true ∧
    (SkopeoProgressParser.init.parseLines
        [gettingLine, blobSizeLine, manifestLine, storingLine]).blobs =
      [(sha64, { sha256 := sha64, size := some 1048576, status := "copying" })] ∧
    (SkopeoProgressParser.init.parseLines [gettingLine]).get_progress_percentage = 10 ∧
    (20 ≤ (SkopeoProgressParser.init.parseLines
        [gettingLine, blobSizeLine]).get_progress_percentage ∧
      (SkopeoProgressParser.init.parseLines
        [gettingLine, blobSizeLine]).get_progress_percentage ≤ 70) ∧
    (SkopeoProgressParser.init.parseLines
        [gettingLine, blobSizeLine, manifestLine]).get_progress_percentage = 90 ∧
    (SkopeoProgressParser.init.parseLines
        [gettingLine, blobSizeLine, manifestLine, storingLine]).get_progress_percentage = 95 := by
  have h45 : (SkopeoProgressParser.init.parseLines [gettingLine, blobSizeLine]).get_progress_percentage = 45 := by
    have h : (SkopeoProgressParser.init.parseLines [gettingLine, blobSizeLine]) = ⟨⟨"copy", "copying_blob", 0, 0, some ⟨sha64, some 1048576, "copying"⟩, false, false, none, false⟩, [(sha64, ⟨sha64, some 1048576, "copying"⟩)]⟩ := by decide
    rw [h]
    simp [SkopeoProgressParser.get_progress_percentage]
    norm_num [min_def]
  refine ⟨by decide, by decide, by decide, by decide, by rfl, ⟨?_, ?_⟩, by rfl, by rfl⟩
  · rw [h45]; norm_num
  · rw [h45]; norm_num

/-- C8 counterexample: the hex run after the digest marker on this line is
65 characters long — a malformed (wrong-length) token by the claim — yet
the parser still produces a blob event, registering the first 64
characters as the digest. -/
theorem c8_counterexample :
    (List.replicate 65 'a').all isHexLower = true ∧
    (List.replicate 65 'a').length ≠ 64 ∧
    (SkopeoProgressParser.init.parse_line blobLine65).1.isSome = true ∧
    (SkopeoProgressParser.init.parse_line blobLine65).2.blobs =
      [(List.replicate 64 'a',
        { sha256 := List.replicate 64 'a', size := none, status := "copying" })] := by
  refine ⟨by decide, by decide, by decide, by decide⟩

/-- Rejection of a short head: fewer than 64 characters cannot form the
digest group. -/
theorem matchDigest_short (l : List Char) (h : l.length < 64) :
    matchDigest l = none := by
  have h64 : ¬ (l.take 64).length = 64 := by
    rw [List.length_take]
    omega
  simp [matchDigest, h64]
  intro hle
  omega

/-- Rejection of a bad character: any non-lowercase-hex character among the
first 64 makes the digest group fail. -/
theorem matchDigest_badChar (l : List Char) (c : Char) (hc : c ∈ l.take 64)
    (hhex : isHexLower c = false) : matchDigest l = none := by
  have hall : (l.take 64).all isHexLower = false := by
    cases hres : (l.take 64).all isHexLower
    · rfl
    · exact absurd (List.all_eq_true.mp hres c hc) (by simp [hhex])
  simp [matchDigest, hall]

/-- Acceptance with truncation: a 64-character lowercase-hex head matches
and whatever follows is left unconstrained. -/
theorem matchDigest_append (sha r : List Char) (h64 : sha.length = 64)
    (hhex : sha.all isHexLower = true) : matchDigest (sha ++ r) = some (sha, r) := by
  have ht : (sha ++ r).take 64 = sha := by rw [← h64, List.take_left]
  have hd : (sha ++ r).drop 64 = r := by rw [← h64, List.drop_left]
  simp [matchDigest, ht, hd, h64, hhex]

/-- C8 amended: digest extraction accepts exactly the lines whose first 64
characters after the marker are lowercase hex: heads shorter than 64 or
containing an uppercase or non-hex character among the first 64 are
non-matches, but a longer hex run still matches with its first 64
characters taken as the digest. -/
theorem c8_amended :
    (∀ l : List Char, l.length < 64 → matchDigest l = none) ∧
    (∀ (l : List Char) (c : Char), c ∈ l.take 64 → isHexLower c = false →
      matchDigest l = none) ∧
    (∀ sha r : List Char, sha.length = 64 → sha.all isHexLower = true →
      matchDigest (sha ++ r) = some (sha, r)) ∧
    (∀ sha r : List Char, sha.length = 64 → sha.all isHexLower = true →
      matchCopyingBlob ("Copying blob sha256:".toList ++ (sha ++ r)) = some sha) := by
  refine ⟨matchDigest_short, matchDigest_badChar, matchDigest_append, ?_⟩
  intro sha r h64 hhex
  have hpre : listStartsWith "Copying blob sha256:".toList
      ("Copying blob sha256:".toList ++ (sha ++ r)) = true := rfl
  have hdrop : ("Copying blob sha256:".toList ++ (sha ++ r)).drop
      "Copying blob sha256:".toList.length = sha ++ r := rfl
  unfold matchCopyingBlob
  rw [if_pos hpre, hdrop, matchDigest_append sha r h64 hhex]
  rfl

/-- Witness for the amended C8: a short head, an uppercase character, an
exact 64-character head with a tail, and a full blob line are each decided
concretely. -/
theorem c8_witness :
    matchDigest "abc".toList = none ∧
    matchDigest ('A' :: sha64) = none ∧
    matchDigest (sha64 ++ " rest".toList) = some (sha64, " rest".toList) ∧
    matchCopyingBlob ("Copying blob sha256:".toList ++ (sha64 ++ "ff".toList)) = some sha64 :=
  ⟨c8_amended.1 "abc".toList (by decide),
   c8_amended.2.1 ('A' :: sha64) 'A' (by decide) (by decide),
   c8_amended.2.2.1 sha64 " rest".toList (by decide) (by decide),
   c8_amended.2.2.2 sha64 "ff".toList (by decide) (by decide)⟩

/-- Assignment at one key does not disturb lookups at other keys. -/
theorem dictFind_dictSet_ne (bs : List (List Char × BlobInfo)) (k k' : List Char)
    (v : BlobInfo) (h : k' ≠ k) : dictFind (dictSet bs k v) k' = dictFind bs k' := by
  induction bs with
  | nil => simp [dictSet, dictFind, Ne.symm h]
  | cons hd t ih =>
    obtain ⟨a, b⟩ := hd
    by_cases ha : a = k
    · subst ha
      simp [dictSet, dictFind, Ne.symm h]
    · by_cases ha' : a = k' <;> simp [dictSet, dictFind, ha, ha', ih, h]

/-- Frame of one parsed line: the completed flag is never touched, and the
blob registry is either unchanged or extended/updated by a single
assignment whose descriptor is in the "copying" status and which either
carries a size (the blob-with-size pattern) or writes a key that was absent
(the insert-if-missing blob/config patterns). -/
theorem parse_line_frame (st : SkopeoProgressParser) (line : List Char) :
    ((st.parse_line line).2.progress.completed = st.progress.completed) ∧
    ((st.parse_line line).2.blobs = st.blobs ∨
      ∃ k v, v.status = "copying" ∧
        (v.size.isSome = true ∨ dictFind st.blobs k = none) ∧
        (st.parse_line line).2.blobs = dictSet st.blobs k v) := by
  unfold SkopeoProgressParser.parse_line
  by_cases hE : (pyStrip line).isEmpty
  · simp [hE]
  · by_cases hG : matchGettingSignatures (pyStrip line)
    · simp [hE, hG]
    · rcases hBS : matchBlobSize (pyStrip line) with _ | ⟨sha, size⟩
      · rcases hCB : matchCopyingBlob (pyStrip line) with _ | sha
        · rcases hCC : matchCopyingConfig (pyStrip line) with _ | sha
          · by_cases hW : matchWritingManifest (pyStrip line)
            · simp [hE, hG, hBS, hCB, hCC, hW]
            · by_cases hS : matchStoringSignatures (pyStrip line)
              · simp [hE, hG, hBS, hCB, hCC, hW, hS]
              · rcases hER : matchErrorLine (pyStrip line) with _ | msg <;>
                  simp [hE, hG, hBS, hCB, hCC, hW, hS, hER]
          · by_cases hF : (dictFind st.blobs sha).isNone
            · exact ⟨by simp [hE, hG, hBS, hCB, hCC, hF],
                Or.inr ⟨sha, ⟨sha, none, "copying"⟩, rfl,
                  Or.inr (by simpa [Option.isNone_iff_eq_none] using hF),
                  by simp [hE, hG, hBS, hCB, hCC, hF]⟩⟩
            · exact ⟨by simp [hE, hG, hBS, hCB, hCC, hF],
                Or.inl (by simp [hE, hG, hBS, hCB, hCC, hF])⟩
        · by_cases hF : (dictFind st.blobs sha).isNone
          · exact ⟨by simp [hE, hG, hBS, hCB, hF],
              Or.inr ⟨sha, ⟨sha, none, "copying"⟩, rfl,
                Or.inr (by simpa [Option.isNone_iff_eq_none] using hF),
                by simp [hE, hG, hBS, hCB, hF]⟩⟩
          · exact ⟨by simp [hE, hG, hBS, hCB, hF],
              Or.inl (by simp [hE, hG, hBS, hCB, hF])⟩
      · exact ⟨by simp [hE, hG, hBS],
          Or.inr ⟨sha, ⟨sha, some size, "copying"⟩, rfl, Or.inl rfl,
            by simp [hE, hG, hBS]⟩⟩

/-- Feeding any line sequence preserves distinctness of registry keys. -/
theorem parseLines_nodup (lines : List (List Char)) :
    ∀ st : SkopeoProgressParser, (st.blobs.map Prod.fst).Nodup →
      (((st.parseLines lines)).blobs.map Prod.fst).Nodup := by
  induction lines with
  | nil => intro st h; simpa [SkopeoProgressParser.parseLines] using h
  | cons l ls ih =>
    intro st h
    have hstep : (((st.parse_line l).2).blobs.map Prod.fst).Nodup := by
      rcases (parse_line_frame st l).2 with he | ⟨k, v, _, _, he⟩
      · rw [he]; exact h
      · rw [he]; exact dictSet_nodup _ _ _ h
    have hfold : st.parseLines (l :: ls) = ((st.parse_line l).2).parseLines ls := rfl
    rw [hfold]
    exact ih _ hstep

/-- Feeding any line sequence preserves the all-blobs-copying property. -/
theorem parseLines_status (lines : List (List Char)) :
    ∀ st : SkopeoProgressParser, (∀ p ∈ st.blobs, p.2.status = "copying") →
      ∀ p ∈ ((st.parseLines lines)).blobs, p.2.status = "copying" := by
  induction lines with
  | nil => intro st h; simpa [SkopeoProgressParser.parseLines] using h
  | cons l ls ih =>
    intro st h
    have hstep : ∀ p ∈ ((st.parse_line l).2).blobs, p.2.status = "copying" := by
      rcases (parse_line_frame st l).2 with he | ⟨k, v, hv, _, he⟩
      · rw [he]; exact h
      · rw [he]
        intro p hp
        rcases mem_dictSet _ _ _ _ hp with h1 | h1
        · exact h p h1
        · rw [h1]; exact hv
    have hfold : st.parseLines (l :: ls) = ((st.parse_line l).2).parseLines ls := rfl
    rw [hfold]
    exact ih _ hstep

/-- Feeding any line sequence never changes the completed flag. -/
theorem parseLines_completed (lines : List (List Char)) :
    ∀ st : SkopeoProgressParser,
      ((st.parseLines lines)).progress.completed = st.progress.completed := by
  induction lines with
  | nil => intro st; rfl
  | cons l ls ih =>
    intro st
    have hfold : st.parseLines (l :: ls) = ((st.parse_line l).2).parseLines ls := rfl
    rw [hfold, ih _, (parse_line_frame st l).1]

/-- C10: starting from a fresh parser, every descriptor the parser ever
puts in the registry is in the "copying" (in-transit) status — no parsed
line produces a pending, copied or error blob — and no parsed line ever
sets the snapshot's completed flag. -/
theorem c10_blob_status_invariant (lines : List (List Char)) :
    (∀ p ∈ (SkopeoProgressParser.init.parseLines lines).blobs, p.2.status = "copying") ∧
    (SkopeoProgressParser.init.parseLines lines).progress.completed = false := by
  constructor
  · exact parseLines_status lines SkopeoProgressParser.init
      (by simp [SkopeoProgressParser.init])
  · rw [parseLines_completed]
    rfl

/-- Witness for C10 after one blob-with-size line: the registered
descriptor is in the "copying" status and the completed flag is still
down. -/
theorem c10_witness :
    ({ sha256 := sha64, size := some 1048576, status := "copying" } : BlobInfo).status =
      "copying" ∧
    (SkopeoProgressParser.init.parseLines [blobSizeLine]).progress.completed = false :=
  ⟨(c10_blob_status_invariant [blobSizeLine]).1
      (sha64, { sha256 := sha64, size := some 1048576, status := "copying" }) (by decide),
   (c10_blob_status_invariant [blobSizeLine]).2⟩

/-- In a duplicate-free list, a present element is counted exactly once. -/
theorem countP_eq_one_of_nodup_mem {α : Type} [DecidableEq α] (l : List α) (a : α)
    (hnd : l.Nodup) (hmem : a ∈ l) : l.countP (fun x => x = a) = 1 := by
  induction l with
  | nil => cases hmem
  | cons b t ih =>
    rcases List.mem_cons.mp hmem with h | h
    · have hnotin : b ∉ t := (List.nodup_cons.mp hnd).1
      have ht : t.countP (fun x => x = a) = 0 := by
        rw [List.countP_eq_zero]
        intro x hx
        simp only [decide_eq_true_eq]
        intro hxa
        rw [hxa, h] at hx
        exact hnotin hx
      rw [List.countP_cons, ht]
      simp [← h]
    · have hb : ¬ b = a := fun hh => (List.nodup_cons.mp hnd).1 (hh ▸ h)
      rw [List.countP_cons]
      simp [hb]
      exact ih (List.nodup_cons.mp hnd).2 h

/-- C3 counterexample: the same digest reported first with 100 bytes and
then with 50 bytes ends with the smaller size — a set size can decrease on
a later parsed line, because the blob-with-size pattern overwrites the
whole descriptor. -/
theorem c3_counterexample :
    dictFind (SkopeoProgressParser.init.parseLines [blobSize100Line]).blobs sha64 =
      some { sha256 := sha64, size := some 100, status := "copying" } ∧
    dictFind (SkopeoProgressParser.init.parseLines
        [blobSize100Line, blobSize50Line]).blobs sha64 =
      some { sha256 := sha64, size := some 50, status := "copying" } ∧
    (50 : ℕ) < 100 :=
  ⟨by decide, by decide, by decide⟩

/-- C3 amended: the registry always keys at most one descriptor per digest;
a digest observed first on a sizeless blob line and then on a sized one
ends with exactly one descriptor carrying the size of the second
observation; and once a size is set it is never cleared back to unknown by
later lines — but a later sized observation overwrites it with the newly
reported value (latest observation wins), which may be smaller. -/
theorem c3_amended :
    (∀ lines : List (List Char),
      (((SkopeoProgressParser.init.parseLines lines)).blobs.map Prod.fst).Nodup) ∧
    (∀ (st : SkopeoProgressParser) (l₁ l₂ sha : List Char) (size : ℕ),
      (st.blobs.map Prod.fst).Nodup →
      dictFind st.blobs sha = none →
      (pyStrip l₁).isEmpty = false →
      matchGettingSignatures (pyStrip l₁) = false →
      matchBlobSize (pyStrip l₁) = none →
      matchCopyingBlob (pyStrip l₁) = some sha →
      (pyStrip l₂).isEmpty = false →
      matchGettingSignatures (pyStrip l₂) = false →
      matchBlobSize (pyStrip l₂) = some (sha, size) →
      (dictFind (((st.parse_line l₁).2.parse_line l₂).2).blobs sha =
        some { sha256 := sha, size := some size, status := "copying" } ∧
       ((((st.parse_line l₁).2.parse_line l₂).2).blobs.map Prod.fst).countP (fun k => k = sha) = 1)) ∧
    (∀ (st : SkopeoProgressParser) (line sha : List Char) (b : BlobInfo),
      dictFind st.blobs sha = some b → b.size.isSome = true →
      ((dictFind ((st.parse_line line).2).blobs sha).bind BlobInfo.size).isSome = true) := by
  refine ⟨?_, ?_, ?_⟩
  · intro lines
    exact parseLines_nodup lines SkopeoProgressParser.init (by simp [SkopeoProgressParser.init])
  · intro st l₁ l₂ sha size hnd hfind hE₁ hG₁ hBS₁ hCB₁ hE₂ hG₂ hBS₂
    have hb₁ : ((st.parse_line l₁).2).blobs =
        dictSet st.blobs sha ⟨sha, none, "copying"⟩ := by
      unfold SkopeoProgressParser.parse_line
      simp [hE₁, hG₁, hBS₁, hCB₁, hfind]
    have hb₂ : (((st.parse_line l₁).2).parse_line l₂).2.blobs =
        dictSet ((st.parse_line l₁).2).blobs sha ⟨sha, some size, "copying"⟩ := by
      unfold SkopeoProgressParser.parse_line
      simp [hE₂, hG₂, hBS₂]
    constructor
    · rw [hb₂, dictFind_dictSet_self]
    · have hnd₁ : ((((st.parse_line l₁).2).blobs).map Prod.fst).Nodup := by
        rw [hb₁]; exact dictSet_nodup _ _ _ hnd
      have hnd₂ : (((((st.parse_line l₁).2).parse_line l₂).2.blobs).map Prod.fst).Nodup := by
        rw [hb₂]; exact dictSet_nodup _ _ _ hnd₁
      have hmem : sha ∈ ((((st.parse_line l₁).2).parse_line l₂).2.blobs).map Prod.fst := by
        rw [hb₂]; exact mem_keys_dictSet _ _ _
      exact countP_eq_one_of_nodup_mem _ _ hnd₂ hmem
  · intro st line sha b hfind hsize
    rcases (parse_line_frame st line).2 with he | ⟨k, v, hv, hkv, he⟩
    · rw [he, hfind]
      simpa using hsize
    · rw [he]
      by_cases hks : k = sha
      · subst hks
        rcases hkv with h1 | h1
        · rw [dictFind_dictSet_self]
          simpa using h1
        · rw [h1] at hfind
          cases hfind
      · rw [dictFind_dictSet_ne _ _ _ _ (fun hh => hks hh.symm), hfind]
        simpa using hsize

/-- Witness for the amended C3: the sizeless-then-sized two-line scenario
decided from the fresh parser, and size preservation across a further sized
line. -/
theorem c3_witness :
    (dictFind ((SkopeoProgressParser.init.parse_line blobNoSizeLine).2.parse_line
        blobSize100Line).2.blobs sha64 =
      some { sha256 := sha64, size := some 100, status := "copying" } ∧
     ((((SkopeoProgressParser.init.parse_line blobNoSizeLine).2.parse_line
        blobSize100Line).2).blobs.map Prod.fst).countP (fun k => k = sha64) = 1) ∧
    ((dictFind (((SkopeoProgressParser.init.parse_line blobSize100Line).2.parse_line
        blobSize50Line).2).blobs sha64).bind BlobInfo.size).isSome = true :=
  ⟨c3_amended.2.1 SkopeoProgressParser.init blobNoSizeLine blobSize100Line sha64 100
      (by decide) (by decide) (by decide) (by decide) (by decide) (by decide)
      (by decide) (by decide) (by decide),
   c3_amended.2.2 (SkopeoProgressParser.init.parse_line blobSize100Line).2 blobSize50Line
      sha64 { sha256 := sha64, size := some 100, status := "copying" }
      (by decide) (by decide)⟩

/-- Gauge increment at operation start, read pointwise. -/
theorem record_operation_start_active (m : SkopeoMetrics) (op : String) :
    (m.record_operation_start op).active_operations =
      updFn m.active_operations op (m.active_operations op + 1) := rfl

/-- Operation start leaves the error counters untouched. -/
theorem record_operation_start_errors (m : SkopeoMetrics) (op : String) :
    (m.record_operation_start op).operation_errors_total = m.operation_errors_total := rfl

/-- Heartbeat cleanup only removes per-operation detail series: the
active-operations gauge is untouched. -/
theorem stopHeartbeatCleanup_active (m : SkopeoMetrics) (op ss ds step : String) :
    (stopHeartbeatCleanup m op ss ds step).active_operations = m.active_operations := by
  unfold stopHeartbeatCleanup
  dsimp only
  repeat' split
  all_goals rfl

/-- Heartbeat cleanup leaves the error counters untouched. -/
theorem stopHeartbeatCleanup_errors (m : SkopeoMetrics) (op ss ds step : String) :
    (stopHeartbeatCleanup m op ss ds step).operation_errors_total =
      m.operation_errors_total := by
  unfold stopHeartbeatCleanup
  dsimp only
  repeat' split
  all_goals rfl

/-- Operation end decrements the active gauge and touches it in no other
way, whatever the blob statistics and source/destination are. -/
theorem record_operation_end_active (m : SkopeoMetrics) (op : String) (success : Bool)
    (t₀ t₁ : ℚ) (src dst : Option String) (bc tbs : ℕ) :
    (m.record_operation_end op success t₀ t₁ src dst bc tbs).active_operations =
      updFn m.active_operations op (m.active_operations op - 1) := by
  unfold SkopeoMetrics.record_operation_end
  rcases src with _ | s <;> rcases dst with _ | d <;> dsimp only <;> (try split_ifs) <;> rfl

/-- Operation end leaves the error counters untouched. -/
theorem record_operation_end_errors (m : SkopeoMetrics) (op : String) (success : Bool)
    (t₀ t₁ : ℚ) (src dst : Option String) (bc tbs : ℕ) :
    (m.record_operation_end op success t₀ t₁ src dst bc tbs).operation_errors_total =
      m.operation_errors_total := by
  unfold SkopeoMetrics.record_operation_end
  rcases src with _ | s <;> rcases dst with _ | d <;> dsimp only <;> (try split_ifs) <;> rfl

/-- Error recording leaves the active gauge untouched. -/
theorem record_error_active (m : SkopeoMetrics) (op t : String) :
    (m.record_error op t).active_operations = m.active_operations := rfl

/-- Error recording bumps exactly one error counter. -/
theorem record_error_errors (m : SkopeoMetrics) (op t : String) :
    (m.record_error op t).operation_errors_total =
      updFn m.operation_errors_total (op, t) (m.operation_errors_total (op, t) + 1) := rfl

/-- C9: across one tracker scope the active-operations gauge ends exactly
where it started for every operation kind, whether the body returned or
raised; the value handed back by the scope's exit is falsy, so an exception
is re-raised to the caller unchanged; and the per-(kind, type) error
counter is incremented precisely when an exception of that type was raised
for that kind, and otherwise unchanged. -/
theorem c9_tracker_scope (m : SkopeoMetrics) (operation : String)
    (source destination : Option String) (current_step : String)
    (start_time end_time : ℚ) (blob_count total_blob_size : ℕ)
    (exc_type : Option String) :
    (∀ k, ((OperationTracker.scope m operation source destination current_step
        start_time end_time blob_count total_blob_size exc_type).1).active_operations k =
      m.active_operations k) ∧
    (OperationTracker.scope m operation source destination current_step
        start_time end_time blob_count total_blob_size exc_type).2 = false ∧
    (∀ k t, ((OperationTracker.scope m operation source destination current_step
        start_time end_time blob_count total_blob_size exc_type).1).operation_errors_total
          (k, t) =
      m.operation_errors_total (k, t) +
        (match exc_type with
         | some e => if k = operation ∧ t = e then 1 else 0
         | none => 0)) := by
  refine ⟨?_, rfl, ?_⟩
  · intro k
    unfold OperationTracker.scope
    rcases exc_type with _ | e <;>
      simp only [record_error_active, record_operation_end_active,
        stopHeartbeatCleanup_active, record_operation_start_active] <;>
      by_cases hk : k = operation <;>
      simp [updFn, hk]
  · intro k t
    unfold OperationTracker.scope
    rcases exc_type with _ | e
    · simp only [record_operation_end_errors, stopHeartbeatCleanup_errors,
        record_operation_start_errors]
      simp
    · simp only [record_error_errors, record_operation_end_errors,
        stopHeartbeatCleanup_errors, record_operation_start_errors]
      by_cases hk : (k, t) = (operation, e)
      · obtain ⟨h1, h2⟩ := Prod.mk.injEq .. ▸ hk
        simp [updFn, hk, h1, h2]
      · have hne : ¬ (k = operation ∧ t = e) := by
          intro ⟨h1, h2⟩
          exact hk (by rw [h1, h2])
        simp [updFn, hk, hne]
